import Mathlib

/-!
Verification development for the `huum` sauna-control client
(`custom_components/huum/huum.py` and `settings.py`), shallowly embedded
in Lean 4.

Modelling conventions:
* Each `async` method of the Python class `Huum` becomes a pure Lean
  function.  Network I/O is made explicit: every HTTP round trip the
  method would perform consumes one `NetOutcome` argument (what the
  remote service answers), and the function returns, besides its
  result, the list of HTTP requests actually issued and the client
  object after the call (so that frame properties are statable).
* Python exceptions become constructors of `HuumError`; the result of a
  method is `Except HuumError α`.  Exception message strings are
  elided: no claim concerns them.
* `aiohttp` behaviour embedded: `session.get`/`session.post` with
  `raise_for_status=True` raises `ClientResponseError` carrying the
  HTTP status code whenever the code is ≥ 400, and a connection
  failure raises a client connection error.  Accessing the unset
  `self.session` attribute raises `AttributeError`.
* Python truthiness of the optional credential strings (`not username`)
  is `py_not` below: true exactly for `None` and the empty string.
-/

/-- The `SaunaStatus` IntEnum of huum.py. -/
inductive SaunaStatus
  | offline
  | online_heating
  | online_not_heating
  | locked
  | emergency_stop
deriving DecidableEq, Repr

/-- The integer code of each `SaunaStatus` member (IntEnum values). -/
def SaunaStatus.code : SaunaStatus → Nat
  | .offline => 230
  | .online_heating => 231
  | .online_not_heating => 232
  | .locked => 233
  | .emergency_stop => 400

/-- Modelled from the spec: `HuumStatusResponse` is defined in
`custom_components/huum/schemas.py`, which is not among the provided
source files; the record is reconstructed from its uses in `huum.py` /
`climate.py` (`.status`, `.door_closed`, `.temperature`,
`.target_temperature`) and the spec's §3 field list.  The numeric
payloads are never computed with, so `temperature` is an integer here. -/
structure HuumStatusResponse where
  status : SaunaStatus
  door_closed : Bool
  temperature : Option Int
  target_temperature : Option Int
deriving DecidableEq, Repr

/-- The exception kinds the client code can raise. -/
inductive HuumError
  /-- Python `ValueError` (construction without credentials, or
  out-of-range temperature in `turn_on`). -/
  | valueError
  /-- `SafetyException` of huum.py (door open). -/
  | safetyException
  /-- `aiohttp` connection-level failure. -/
  | clientConnectionError
  /-- `aiohttp.ClientResponseError` raised by `raise_for_status=True`
  on an HTTP response with status code ≥ 400; carries that code. -/
  | clientResponseError (code : Nat)
  /-- pydantic validation failure when the JSON body does not fit
  `HuumStatusResponse`. -/
  | pydanticValidationError
  /-- Python `AttributeError` on accessing the unset `self.session`. -/
  | attributeError
deriving DecidableEq, Repr

/-- Constructor tag of an error: two errors are of the same *kind*
exactly when their tags agree (the payload of `clientResponseError`
does not change the exception class raised in Python). -/
def HuumError.kind : HuumError → Nat
  | .valueError => 0
  | .safetyException => 1
  | .clientConnectionError => 2
  | .clientResponseError _ => 3
  | .pydanticValidationError => 4
  | .attributeError => 5

/-- HTTP method of an issued request. -/
inductive HttpMethod
  | get
  | post
deriving DecidableEq, Repr

/-- `API_BASE` of huum.py. -/
def API_BASE : String := "https://api.huum.eu/action/home/"

/-- `urllib.parse.urljoin` restricted to the shape used in huum.py:
a base ending in a slash joined with a relative path segment. -/
def urljoin (base url : String) : String := base ++ url

/-- One HTTP request as the client sends it: method, full URL, the
optional JSON body `{"targetTemperature": t}`, and the Basic-Auth
credential pair attached to the call. -/
structure Request where
  method : HttpMethod
  url : String
  targetTemperature : Option Int
  auth : String × String
deriving DecidableEq, Repr

/-- How the remote service answers one HTTP round trip. -/
inductive Body
  /-- a JSON body that parses into the response schema -/
  | ok (r : HuumStatusResponse)
  /-- a body pydantic rejects -/
  | malformed
deriving DecidableEq, Repr

/-- Outcome of attempting one HTTP request. -/
inductive NetOutcome
  /-- connection-level failure -/
  | connFail
  /-- an HTTP response with the given status code and body -/
  | reply (code : Nat) (body : Body)
deriving DecidableEq, Repr

/-- The client object: the Basic-Auth pair built in `__init__`, and
the session attribute, `none` while unset. -/
structure Huum where
  auth : String × String
  session : Option Unit
deriving DecidableEq, Repr

/-- Result of running one client method: the value or exception, the
HTTP requests that were actually issued (in order), and the client
object after the call. -/
structure CallOut (α : Type) where
  result : Except HuumError α
  requests : List Request
  client : Huum

/-- Class attribute `min_temp` of `Huum`. -/
def Huum.min_temp : Int := 40

/-- Class attribute `max_temp` of `Huum`. -/
def Huum.max_temp : Int := 110

/-- Python truthiness test `not s` for an `Optional[str]`. -/
def py_not : Option String → Bool
  | none => true
  | some s => s.isEmpty

/-- `Huum.__init__(username, password, session)`: stores the session if
one is given, then raises `ValueError` unless both credentials are
truthy, else stores `aiohttp.BasicAuth(username, password)`.  It
performs no network access, hence no request list in the type. -/
def Huum.init (username password : Option String) (session : Option Unit) :
    Except HuumError Huum :=
  if py_not username || py_not password then
    .error .valueError
  else
    .ok { auth := (username.getD "", password.getD ""), session := session }

/-- The environment-sourced configuration of settings.py: a
`Settings(BaseSettings)` with optional `huum_username` and
`huum_password` read from process environment variables. -/
structure Settings where
  huum_username : Option String
  huum_password : Option String
deriving DecidableEq, Repr

/-- Construction `Huum()` with no explicit credentials: the parameter
defaults are `settings.huum_username` / `settings.huum_password`. -/
def Huum.init_from_env (st : Settings) (session : Option Unit) :
    Except HuumError Huum :=
  Huum.init st.huum_username st.huum_password session

/-- One `self.session.get/post(url, ..., auth=self.auth,
raise_for_status=True)` round trip followed by parsing the JSON body
into `HuumStatusResponse`.  Accessing the unset session attribute
raises `AttributeError` before any request leaves; otherwise the
request is issued and the outcome decides between connection error,
`ClientResponseError` (code ≥ 400), parse failure, or success. -/
def Huum.request (h : Huum) (m : HttpMethod) (url : String)
    (body : Option Int) (out : NetOutcome) : CallOut HuumStatusResponse :=
  match h.session with
  | none => { result := .error .attributeError, requests := [], client := h }
  | some _ =>
    { result :=
        match out with
        | .connFail => .error .clientConnectionError
        | .reply code b =>
          if 400 ≤ code then .error (.clientResponseError code)
          else
            match b with
            | .ok r => .ok r
            | .malformed => .error .pydanticValidationError
      requests := [{ method := m, url := url, targetTemperature := body,
                     auth := h.auth }]
      client := h }

/-- `Huum.status`: authenticated GET to the status endpoint. -/
def Huum.status (h : Huum) (out : NetOutcome) : CallOut HuumStatusResponse :=
  h.request .get (urljoin API_BASE "status") none out

/-- `Huum.turn_off`: authenticated POST to the stop endpoint, no body. -/
def Huum.turn_off (h : Huum) (out : NetOutcome) : CallOut HuumStatusResponse :=
  h.request .post (urljoin API_BASE "stop") none out

/-- `Huum._check_door`: call `status()`; raise `SafetyException` when
the response reports the door not closed. -/
def Huum._check_door (h : Huum) (out : NetOutcome) : CallOut Unit :=
  let s := h.status out
  { result :=
      match s.result with
      | .ok r => if r.door_closed then .ok () else .error .safetyException
      | .error e => .error e
    requests := s.requests
    client := s.client }

/-- `Huum.turn_on(temperature, safety_override)`: reject a temperature
outside `range(min_temp, max_temp)` with `ValueError` before anything
else; unless overridden, run the door check; then POST
`{"targetTemperature": temperature}` to the start endpoint. -/
def Huum.turn_on (h : Huum) (temperature : Int) (safety_override : Bool)
    (doorOut startOut : NetOutcome) : CallOut HuumStatusResponse :=
  if ¬ (Huum.min_temp ≤ temperature ∧ temperature < Huum.max_temp) then
    { result := .error .valueError, requests := [], client := h }
  else
    let door : CallOut Unit :=
      if safety_override then { result := .ok (), requests := [], client := h }
      else h._check_door doorOut
    match door.result with
    | .error e => { result := .error e, requests := door.requests,
                    client := door.client }
    | .ok _ =>
      let s := door.client.request .post (urljoin API_BASE "start")
        (some temperature) startOut
      { result := s.result, requests := door.requests ++ s.requests,
        client := s.client }

/-- `Huum.set_temperature`: alias for `turn_on`, implemented as
`return await self.turn_on(temperature, safety_override)`. -/
def Huum.set_temperature (h : Huum) (temperature : Int)
    (safety_override : Bool) (doorOut startOut : NetOutcome) :
    CallOut HuumStatusResponse :=
  h.turn_on temperature safety_override doorOut startOut

/-- `Huum.status_from_status_or_stop`: call `status()`; when it reports
`ONLINE_NOT_HEATING`, replace the response by the one from
`turn_off()`. -/
def Huum.status_from_status_or_stop (h : Huum)
    (statusOut stopOut : NetOutcome) : CallOut HuumStatusResponse :=
  let s := h.status statusOut
  match s.result with
  | .ok r =>
    if r.status = SaunaStatus.online_not_heating then
      let s2 := s.client.turn_off stopOut
      { result := s2.result, requests := s.requests ++ s2.requests,
        client := s2.client }
    else
      { result := .ok r, requests := s.requests, client := s.client }
  | .error e => { result := .error e, requests := s.requests,
                  client := s.client }

/-- `Huum.open_session`: create and store a session. -/
def Huum.open_session (h : Huum) : Huum :=
  { h with session := some () }

/-- The GET request `status()` issues, for a given client. -/
def statusRequest (h : Huum) : Request :=
  { method := .get, url := urljoin API_BASE "status",
    targetTemperature := none, auth := h.auth }

/-- The POST request `turn_off()` issues, for a given client. -/
def stopRequest (h : Huum) : Request :=
  { method := .post, url := urljoin API_BASE "stop",
    targetTemperature := none, auth := h.auth }

/-- The POST request `turn_on(t)` issues, for a given client. -/
def startRequest (h : Huum) (t : Int) : Request :=
  { method := .post, url := urljoin API_BASE "start",
    targetTemperature := some t, auth := h.auth }

/-- A concrete client with credentials and an open session, used in
witnesses. -/
def demoClient : Huum := { auth := ("user", "pw"), session := some () }

/-- A concrete well-formed status response, used in witnesses. -/
def demoResponse : HuumStatusResponse :=
  { status := .online_not_heating, door_closed := true,
    temperature := some 55, target_temperature := none }

/-! ## Helper lemmas -/

/-- A single HTTP round trip never mutates the client object. -/
lemma request_client (h : Huum) (m : HttpMethod) (u : String)
    (b : Option Int) (out : NetOutcome) : (h.request m u b out).client = h := by
  unfold Huum.request
  cases h.session <;> rfl

/-- With an open session, a round trip answered below 400 with a
parseable body succeeds and issues exactly its one request. -/
lemma request_ok (h : Huum) (hs : h.session = some ()) (m : HttpMethod)
    (u : String) (b : Option Int) (c : Nat) (hc : c < 400)
    (r : HuumStatusResponse) :
    h.request m u b (.reply c (.ok r)) =
      { result := .ok r,
        requests := [{ method := m, url := u, targetTemperature := b,
                       auth := h.auth }],
        client := h } := by
  unfold Huum.request
  rw [hs]
  simp [Nat.not_le.mpr hc]

/-- With an open session, a round trip answered with code ≥ 400 fails
with `ClientResponseError` carrying that code. -/
lemma request_non2xx (h : Huum) (hs : h.session = some ())
    (m : HttpMethod) (u : String) (b : Option Int) (c : Nat)
    (hc : 400 ≤ c) (bd : Body) :
    h.request m u b (.reply c bd) =
      { result := .error (.clientResponseError c),
        requests := [{ method := m, url := u, targetTemperature := b,
                       auth := h.auth }],
        client := h } := by
  unfold Huum.request
  rw [hs]
  simp [hc]

/-- Without a session, a round trip fails with `AttributeError` before
issuing anything. -/
lemma request_no_session (h : Huum) (hs : h.session = none)
    (m : HttpMethod) (u : String) (b : Option Int) (out : NetOutcome) :
    h.request m u b out =
      { result := .error .attributeError, requests := [], client := h } := by
  unfold Huum.request
  rw [hs]

/-! ## Claim theorems -/

/-- C1: `status_from_status_or_stop` first calls `status()`; exactly
when the returned status is `ONLINE_NOT_HEATING` it discards that
response, makes one additional call to `turn_off()` and returns its
response; for every other status value it makes no additional call and
returns the original response unchanged. -/
theorem reconciled_status_spec (h : Huum) (hs : h.session = some ())
    (c : Nat) (hc : c < 400) (r : HuumStatusResponse)
    (stopOut : NetOutcome) :
    (r.status = SaunaStatus.online_not_heating →
      h.status_from_status_or_stop (.reply c (.ok r)) stopOut =
        { result := (h.turn_off stopOut).result,
          requests := statusRequest h :: (h.turn_off stopOut).requests,
          client := (h.turn_off stopOut).client }) ∧
    (r.status ≠ SaunaStatus.online_not_heating →
      h.status_from_status_or_stop (.reply c (.ok r)) stopOut =
        { result := .ok r, requests := [statusRequest h], client := h }) := by
  have hst : h.status (.reply c (.ok r)) =
      { result := .ok r, requests := [statusRequest h], client := h } :=
    request_ok h hs .get (urljoin API_BASE "status") none c hc r
  constructor
  · intro hr
    unfold Huum.status_from_status_or_stop
    rw [hst]
    simp [hr]
  · intro hr
    unfold Huum.status_from_status_or_stop
    rw [hst]
    simp [hr]

/-- Witness for C1 at a concrete client and responses. -/
theorem reconciled_status_spec_witness :
    demoClient.status_from_status_or_stop
        (.reply 200 (.ok demoResponse)) (.reply 200 (.ok demoResponse)) =
      { result := (demoClient.turn_off (.reply 200 (.ok demoResponse))).result,
        requests := statusRequest demoClient ::
          (demoClient.turn_off (.reply 200 (.ok demoResponse))).requests,
        client := (demoClient.turn_off (.reply 200 (.ok demoResponse))).client } :=
  (reconciled_status_spec demoClient rfl 200 (by decide) demoResponse
    (.reply 200 (.ok demoResponse))).1 rfl

/-- C2: for every in-range temperature, `turn_on` without override,
when the preceding status check reports `door_closed = false`, fails
with `SafetyException` and issues no start request: the only request
on the wire is the status check. -/
theorem turn_on_door_open_refused (h : Huum) (hs : h.session = some ())
    (t : Int) (ht : 40 ≤ t ∧ t < 110) (c : Nat) (hc : c < 400)
    (r : HuumStatusResponse) (hd : r.door_closed = false)
    (startOut : NetOutcome) :
    h.turn_on t false (.reply c (.ok r)) startOut =
      { result := .error .safetyException, requests := [statusRequest h],
        client := h } := by
  have hst : h.status (.reply c (.ok r)) =
      { result := .ok r, requests := [statusRequest h], client := h } :=
    request_ok h hs .get (urljoin API_BASE "status") none c hc r
  unfold Huum.turn_on Huum._check_door
  rw [hst]
  simp [Huum.min_temp, Huum.max_temp, ht.1, ht.2, hd]

/-- Witness for C2 at a concrete client and door-open response. -/
theorem turn_on_door_open_refused_witness :
    demoClient.turn_on 80 false
        (.reply 200 (.ok { demoResponse with door_closed := false }))
        .connFail =
      { result := .error .safetyException,
        requests := [statusRequest demoClient], client := demoClient } :=
  turn_on_door_open_refused demoClient rfl 80 (by decide) 200 (by decide)
    { demoResponse with door_closed := false } rfl .connFail

/-- C3: for every integer `t` with `t < 40` or `110 ≤ t` (including
`t = 110`), `turn_on` fails with `ValueError` for either value of
`safety_override` and issues no request at all, not even the
door-safety status check; for `40 ≤ t < 110` the range validation
passes (the result is never the range `ValueError`). -/
theorem turn_on_range_check (h : Huum) (t : Int) (o : Bool)
    (d s : NetOutcome) :
    ((t < 40 ∨ 110 ≤ t) →
      h.turn_on t o d s =
        { result := .error .valueError, requests := [], client := h }) ∧
    (40 ≤ t → t < 110 →
      (h.turn_on t o d s).result ≠ .error .valueError) := by
  constructor
  · intro hout
    unfold Huum.turn_on
    rcases hout with hlt | hge
    · simp [Huum.min_temp, Huum.max_temp, not_le.mpr hlt]
    · simp [Huum.min_temp, Huum.max_temp, not_lt.mpr hge]
  · intro h1 h2
    unfold Huum.turn_on
    simp only [Huum.min_temp, Huum.max_temp, h1, h2, and_self,
      not_true_eq_false, if_false]
    rcases o with _ | _ <;>
      simp only [Bool.false_eq_true, if_false, if_true] <;>
      [skip; skip] <;>
      first
      | (unfold Huum._check_door Huum.status Huum.request
         rcases hses : h.session with _ | u <;> simp
         · rcases d with _ | ⟨c, b⟩ <;> simp
           rcases Nat.lt_or_ge c 400 with hc | hc
           · simp [Nat.not_le.mpr hc]
             rcases b with r | _ <;> simp
             rcases hses2 : h.session with _ | v <;> simp
             · rcases r.door_closed <;> simp
             · rcases r.door_closed <;> simp
               rcases s with _ | ⟨c2, b2⟩ <;> simp
               rcases Nat.lt_or_ge c2 400 with hc2 | hc2
               · simp [Nat.not_le.mpr hc2]
                 rcases b2 with r2 | _ <;> simp
               · simp [hc2]
           · simp [hc])
      | (unfold Huum.request
         rcases h.session with _ | u <;> simp
         rcases s with _ | ⟨c2, b2⟩ <;> simp
         rcases Nat.lt_or_ge c2 400 with hc2 | hc2
         · simp [Nat.not_le.mpr hc2]
           rcases b2 with r2 | _ <;> simp
         · simp [hc2])

/-- Witness for C3: rejection at the boundary value 110 and acceptance
of 40 on a concrete client. -/
theorem turn_on_range_check_witness :
    demoClient.turn_on 110 false .connFail .connFail =
      { result := .error .valueError, requests := [], client := demoClient } ∧
    (demoClient.turn_on 40 true .connFail
        (.reply 200 (.ok demoResponse))).result ≠
      .error .valueError :=
  ⟨(turn_on_range_check demoClient 110 false .connFail .connFail).1
      (Or.inr (by decide)),
   (turn_on_range_check demoClient 40 true .connFail
      (.reply 200 (.ok demoResponse))).2 (by decide) (by decide)⟩

/-- C4: for every in-range temperature, when the door is reported
closed, `turn_on` issues exactly one start request carrying
`targetTemperature = t`, preceded by exactly one status check; with
`safety_override = true` it issues the single start request with no
preceding status check. -/
theorem turn_on_request_sequence (h : Huum) (hs : h.session = some ())
    (t : Int) (ht : 40 ≤ t ∧ t < 110) (c : Nat) (hc : c < 400)
    (r : HuumStatusResponse) (hd : r.door_closed = true)
    (startOut : NetOutcome) :
    (h.turn_on t false (.reply c (.ok r)) startOut).requests =
      [statusRequest h, startRequest h t] ∧
    (∀ d : NetOutcome, (h.turn_on t true d startOut).requests =
      [startRequest h t]) := by
  have hst : h.status (.reply c (.ok r)) =
      { result := .ok r, requests := [statusRequest h], client := h } :=
    request_ok h hs .get (urljoin API_BASE "status") none c hc r
  have hreq : ∀ u : Unit, h.session = some u → ∀ out : NetOutcome,
      (h.request .post (urljoin API_BASE "start") (some t) out).requests =
        [startRequest h t] := by
    intro u hu out
    unfold Huum.request
    rw [hu]
    rfl
  constructor
  · unfold Huum.turn_on Huum._check_door
    rw [hst]
    simp [Huum.min_temp, Huum.max_temp, ht.1, ht.2, hd, hreq () hs,
      startRequest]
  · intro d
    unfold Huum.turn_on
    simp [Huum.min_temp, Huum.max_temp, ht.1, ht.2, hreq () hs,
      startRequest]

/-- Witness for C4 at a concrete client, temperature 80 and a
door-closed status response. -/
theorem turn_on_request_sequence_witness :
    (demoClient.turn_on 80 false (.reply 200 (.ok demoResponse))
        .connFail).requests =
      [statusRequest demoClient, startRequest demoClient 80] ∧
    (demoClient.turn_on 80 true .connFail .connFail).requests =
      [startRequest demoClient 80] :=
  ⟨(turn_on_request_sequence demoClient rfl 80 (by decide) 200 (by decide)
      demoResponse rfl .connFail).1,
   (turn_on_request_sequence demoClient rfl 80 (by decide) 200 (by decide)
      demoResponse rfl .connFail).2 .connFail⟩

/-- C5 counterexample: the client raises the *same* error kind
(`aiohttp.ClientResponseError`, via `raise_for_status=True`) for an
HTTP 401 answer to `status()` as for any other non-2xx answer such as
500 — there is no distinct auth-error kind, contrary to the claim. -/
theorem status_401_same_kind_as_500 :
    ∃ e1 e2 : HuumError,
      (demoClient.status (.reply 401 .malformed)).result = .error e1 ∧
      (demoClient.status (.reply 500 .malformed)).result = .error e2 ∧
      e1.kind = e2.kind :=
  ⟨.clientResponseError 401, .clientResponseError 500, rfl, rfl, rfl⟩

/-- C5 amended: for every `status()` call answered with HTTP 401 or
403 — indeed any code ≥ 400 — the call fails with
`ClientResponseError` carrying that code, the same error kind as for
every other non-2xx response, and no response object is returned. -/
theorem status_non2xx_fails (h : Huum) (hs : h.session = some ())
    (c : Nat) (hc : 400 ≤ c) (b : Body) :
    (h.status (.reply c b)).result = .error (.clientResponseError c) := by
  unfold Huum.status
  rw [request_non2xx h hs .get (urljoin API_BASE "status") none c hc b]

/-- Witness for the amended C5 at HTTP 401. -/
theorem status_non2xx_fails_witness :
    (demoClient.status (.reply 401 (.ok demoResponse))).result =
      .error (.clientResponseError 401) :=
  status_non2xx_fails demoClient rfl 401 (by decide) (.ok demoResponse)

/-- C6: construction fails with `ValueError` exactly when the username
or the password is absent (`None`) or empty, whether the pair comes
from explicit arguments or from the environment-sourced `settings`
defaults; with both non-empty it succeeds.  Construction performs no
network access: `Huum.__init__` contains no HTTP call, which the
embedding reflects by `Huum.init` consuming no `NetOutcome` and
producing no `Request`. -/
theorem init_requires_credentials (u p : Option String)
    (s : Option Unit) :
    ((py_not u || py_not p) = true →
      Huum.init u p s = .error .valueError) ∧
    ((py_not u || py_not p) = false →
      Huum.init u p s =
        .ok { auth := (u.getD "", p.getD ""), session := s }) ∧
    Huum.init_from_env { huum_username := u, huum_password := p } s =
      Huum.init u p s := by
  refine ⟨fun hf => ?_, fun ht => ?_, rfl⟩
  · unfold Huum.init
    rw [hf]
    rfl
  · unfold Huum.init
    rw [ht]
    rfl

/-- Witness for C6: empty password fails, full credentials succeed. -/
theorem init_requires_credentials_witness :
    Huum.init (some "user") (some "") none = .error .valueError ∧
    Huum.init (some "user") (some "pw") none =
      .ok { auth := ("user", "pw"), session := none } :=
  ⟨(init_requires_credentials (some "user") (some "") none).1 (by decide),
   (init_requires_credentials (some "user") (some "pw") none).2.1 (by decide)⟩

/-- C7: `set_temperature` is a pure forwarding call to `turn_on`: on
every input it issues the same requests, returns the same result and
fails with the same error. -/
theorem set_temperature_is_turn_on (h : Huum) (t : Int) (o : Bool)
    (d s : NetOutcome) :
    h.set_temperature t o d s = h.turn_on t o d s := rfl

/-- C8: no operation mutates the client object — credentials and
session attribute are as before the call — and no device state is
cached on it: consequently the client obtained after any call behaves
on the next call exactly like the original, so no operation's result
depends on a previous call's response. -/
theorem operations_frame (h : Huum) (t : Int) (o : Bool)
    (d s d2 s2 : NetOutcome) :
    (h.status d).client = h ∧
    (h.turn_off d).client = h ∧
    (h.turn_on t o d s).client = h ∧
    (h.set_temperature t o d s).client = h ∧
    (h.status_from_status_or_stop d s).client = h ∧
    (h.status d).client.turn_on t o d2 s2 = h.turn_on t o d2 s2 ∧
    (h.status_from_status_or_stop d s).client.status d2 = h.status d2 := by
  have hto : ∀ out : NetOutcome, (h.turn_off out).client = h := fun out =>
    request_client h .post (urljoin API_BASE "stop") none out
  have hst : ∀ out : NetOutcome, (h.status out).client = h := fun out =>
    request_client h .get (urljoin API_BASE "status") none out
  have hcd : ∀ out : NetOutcome, (h._check_door out).client = h := by
    intro out
    unfold Huum._check_door
    exact hst out
  have hon : ∀ out out2 : NetOutcome,
      (h.turn_on t o out out2).client = h := by
    intro out out2
    unfold Huum.turn_on
    rcases Decidable.em (Huum.min_temp ≤ t ∧ t < Huum.max_temp) with hr | hr
    · simp only [hr, not_true_eq_false, if_false]
      rcases o with _ | _
      · simp only [Bool.false_eq_true, if_false]
        rcases hcr : (h._check_door out).result with e | u
        · simp [hcr, hcd out]
        · simp [hcr, hcd out, request_client]
      · simp only [if_true]
        simp [request_client]
    · simp [hr]
  have hrec : ∀ out out2 : NetOutcome,
      (h.status_from_status_or_stop out out2).client = h := by
    intro out out2
    unfold Huum.status_from_status_or_stop
    rcases hsr : (h.status out).result with e | r
    · simp [hsr, hst out]
    · rcases Decidable.em (r.status = SaunaStatus.online_not_heating)
        with hq | hq
      · simp [hsr, hq, hst out, hto]
      · simp [hsr, hq, hst out]
  refine ⟨hst d, hto d, hon d s, hon d s, hrec d s, ?_, ?_⟩
  · rw [hst d]
  · rw [hrec d s]

/-- A door-closed response with a non-heating status, used in witnesses. -/
def emergencyStopResponse : HuumStatusResponse :=
  { status := .emergency_stop, door_closed := true,
    temperature := none, target_temperature := some 70 }

/-- C9: the door-safety check consults only the `door_closed` field of
the status response and ignores the `status` field: for every status
value, `turn_on` without override proceeds to issue the start request
whenever `door_closed` is true. -/
theorem door_check_ignores_status (h : Huum) (hs : h.session = some ())
    (t : Int) (ht : 40 ≤ t ∧ t < 110) (c : Nat) (hc : c < 400)
    (st : SaunaStatus) (temp tt : Option Int) (startOut : NetOutcome) :
    (h._check_door (.reply c
        (.ok ⟨st, true, temp, tt⟩))).result = .ok () ∧
    (h.turn_on t false (.reply c (.ok ⟨st, true, temp, tt⟩))
        startOut).requests = [statusRequest h, startRequest h t] := by
  have hst : h.status (.reply c (.ok ⟨st, true, temp, tt⟩)) =
      { result := .ok ⟨st, true, temp, tt⟩,
        requests := [statusRequest h], client := h } :=
    request_ok h hs .get (urljoin API_BASE "status") none c hc _
  constructor
  · unfold Huum._check_door
    rw [hst]
    rfl
  · unfold Huum.turn_on Huum._check_door
    rw [hst]
    simp only [Huum.min_temp, Huum.max_temp, ht.1, ht.2, and_self,
      not_true_eq_false, if_false, Bool.false_eq_true, if_true]
    unfold Huum.request
    rw [hs]
    simp [statusRequest, startRequest]

/-- Witness for C9 with `status = EMERGENCY_STOP` and the door closed. -/
theorem door_check_ignores_status_witness :
    (demoClient._check_door (.reply 200 (.ok emergencyStopResponse))).result =
      .ok () ∧
    (demoClient.turn_on 80 false (.reply 200 (.ok emergencyStopResponse))
        .connFail).requests =
      [statusRequest demoClient, startRequest demoClient 80] :=
  door_check_ignores_status demoClient rfl 80 (by decide) 200 (by decide)
    .emergency_stop none (some 70) .connFail

/-- A concrete client built without supplying a session. -/
def sessionlessClient : Huum := { auth := ("user", "pw"), session := none }

/-- C10 counterexample: on a client whose session attribute is unset,
`turn_on 200` fails with the range `ValueError`, not with the
missing-attribute error the claim promises for every operation — the
temperature validation precedes any access to `self.session`. -/
theorem sessionless_turn_on_not_attribute_error :
    (sessionlessClient.turn_on 200 false .connFail .connFail).result =
      .error .valueError ∧
    HuumError.valueError ≠ HuumError.attributeError := by
  exact ⟨rfl, by decide⟩

/-- C10 amended: constructing the client without a session succeeds
given truthy credentials and leaves the session attribute unset; every
operation invoked on a session-less client fails with `AttributeError`
and issues no request — except that `turn_on`/`set_temperature` with
an out-of-range temperature fail with the range `ValueError` instead,
raised before the session attribute is touched (for in-range
temperatures the missing-attribute failure holds as claimed). -/
theorem unset_session_behaviour (h : Huum) (hs : h.session = none)
    (t : Int) (ht : 40 ≤ t ∧ t < 110) (o : Bool) (d s : NetOutcome)
    (u p : Option String) (hu : py_not u = false) (hp : py_not p = false) :
    Huum.init u p none =
      .ok { auth := (u.getD "", p.getD ""), session := none } ∧
    h.status d =
      { result := .error .attributeError, requests := [], client := h } ∧
    h.turn_off d =
      { result := .error .attributeError, requests := [], client := h } ∧
    h.turn_on t o d s =
      { result := .error .attributeError, requests := [], client := h } ∧
    h.set_temperature t o d s =
      { result := .error .attributeError, requests := [], client := h } ∧
    h.status_from_status_or_stop d s =
      { result := .error .attributeError, requests := [], client := h } := by
  have hreq : ∀ (m : HttpMethod) (u2 : String) (b : Option Int)
      (out : NetOutcome), h.request m u2 b out =
      { result := .error .attributeError, requests := [], client := h } :=
    fun m u2 b out => request_no_session h hs m u2 b out
  have hst : h.status d =
      { result := .error .attributeError, requests := [], client := h } :=
    hreq .get (urljoin API_BASE "status") none d
  have hon : h.turn_on t o d s =
      { result := .error .attributeError, requests := [], client := h } := by
    unfold Huum.turn_on Huum._check_door
    rw [hst]
    rcases o with _ | _
    · simp [Huum.min_temp, Huum.max_temp, ht.1, ht.2]
    · simp [Huum.min_temp, Huum.max_temp, ht.1, ht.2, hreq]
  refine ⟨?_, hst, hreq .post (urljoin API_BASE "stop") none d, hon, hon, ?_⟩
  · unfold Huum.init
    rw [hu, hp]
    rfl
  · unfold Huum.status_from_status_or_stop
    rw [hst]

/-- Witness for the amended C10 on `sessionlessClient` at 80 °C. -/
theorem unset_session_behaviour_witness :
    Huum.init (some "user") (some "pw") none =
      .ok { auth := ("user", "pw"), session := none } ∧
    sessionlessClient.status .connFail =
      { result := .error .attributeError, requests := [],
        client := sessionlessClient } ∧
    sessionlessClient.turn_off .connFail =
      { result := .error .attributeError, requests := [],
        client := sessionlessClient } ∧
    sessionlessClient.turn_on 80 false .connFail .connFail =
      { result := .error .attributeError, requests := [],
        client := sessionlessClient } ∧
    sessionlessClient.set_temperature 80 false .connFail .connFail =
      { result := .error .attributeError, requests := [],
        client := sessionlessClient } ∧
    sessionlessClient.status_from_status_or_stop .connFail .connFail =
      { result := .error .attributeError, requests := [],
        client := sessionlessClient } :=
  unset_session_behaviour sessionlessClient rfl 80 (by decide) false
    .connFail .connFail (some "user") (some "pw") (by decide) (by decide)
